import Mathlib

/-
Verification development for the HonestWorld Integrity Protocol app
(one Streamlit source file, src/app.py).  The definitions below are a
shallow embedding, translated from the source, of:

  * parse_ai_response (app.py lines 562-590): the best-effort JSON
    extractor, including faithful models of the three regular-expression
    searches it performs and of the Python json.loads decoder;
  * analyze_product (app.py lines 592-641): a function whose body, due to
    the dedent at line 598, consists only of its docstring; the rest of
    the intended body is module-level code modelled separately;
  * render_alternative (app.py lines 523-546): the field-normalization
    part for the better_alternative value;
  * get_user_location (app.py lines 300-322): the geolocation helper,
    with the outcome of the external HTTP request taken as input;
  * the module-level analysis button handler (app.py lines 861-969) and
    the camera/upload state handling (app.py lines 756-858).

Machine strings are modelled as lists of Char; Python whitespace
stripping is modelled over the ASCII whitespace characters (all inputs
appearing in the claims are ASCII).
-/

/-- ASCII whitespace recognised by the Python str.strip method
(space, tab, newline, carriage return, vertical tab, form feed). -/
def pyWs (c : Char) : Bool :=
  c == ' ' || c == '\t' || c == '\n' || c == '\r' ||
  c == Char.ofNat 11 || c == Char.ofNat 12

/-- Model of the Python expression response_text.strip() at app.py line 568:
remove leading and trailing whitespace. -/
def pyStrip (l : List Char) : List Char :=
  ((l.dropWhile pyWs).reverse.dropWhile pyWs).reverse

/-- Whitespace skipped by the json module between JSON tokens
(space, tab, newline, carriage return only). -/
def jsonWs (c : Char) : Bool :=
  c == ' ' || c == '\t' || c == '\n' || c == '\r'

/-- Drop leading JSON whitespace. -/
def skipWs (l : List Char) : List Char := l.dropWhile jsonWs

/-- The backtick character (written via its code point). -/
def btick : Char := Char.ofNat 96

/-- The left curly brace character (written via its code point). -/
def lbrace : Char := Char.ofNat 123

/-- The right curly brace character (written via its code point). -/
def rbrace : Char := Char.ofNat 125

/-- Three backticks: the code-fence marker used by the regex patterns at
app.py lines 572-573. -/
def ticks : List Char := [btick, btick, btick]

/-- The opener of a fenced block explicitly labelled as json
(the literal part of the pattern at app.py line 572). -/
def fenceJsonOpen : List Char := ticks ++ [ 'j', 's', 'o', 'n']

/-- Index of the first occurrence of pat as a contiguous subsequence. -/
def firstSub (pat : List Char) : List Char → Option Nat
  | [] => if pat.isEmpty then some 0 else none
  | c :: r => if pat.isPrefixOf (c :: r) then some 0 else (firstSub pat r).map (· + 1)

/-- Whether pat occurs as a contiguous subsequence. -/
def containsSeq (pat : List Char) : List Char → Bool
  | [] => pat.isEmpty
  | c :: r => pat.isPrefixOf (c :: r) || containsSeq pat r

/-- Model of re.search for the fence patterns at app.py lines 572-573
with the DOTALL flag, returning group(1).  For the pattern consisting of
an opener (three backticks, optionally followed by the word json), then
backslash-s-star, then a lazy dot-star group, then backslash-s-star, then
three closing backticks, the leftmost match starts at the first position
where the opener occurs with three backticks occurring somewhere after
it, and the captured group is the text strictly between the end of the
opener and the first subsequent three-backtick occurrence, with
surrounding whitespace stripped (the greedy whitespace atoms on both
sides of the lazy group absorb exactly that whitespace). -/
def searchFence (opener : List Char) : List Char → Option (List Char)
  | [] => none
  | c :: r =>
    if opener.isPrefixOf (c :: r) then
      match firstSub ticks ((c :: r).drop opener.length) with
      | some j => some (pyStrip (((c :: r).drop opener.length).take j))
      | none => searchFence opener r
    else searchFence opener r

/-- Index of the first occurrence of a character. -/
def firstIdxOf (ch : Char) : List Char → Option Nat
  | [] => none
  | a :: r => if a == ch then some 0 else (firstIdxOf ch r).map (· + 1)

/-- Index of the last occurrence of a character. -/
def lastIdxOf (ch : Char) (l : List Char) : Option Nat :=
  (firstIdxOf ch l.reverse).map (fun k => l.length - 1 - k)

/-- Model of re.search for the third pattern at app.py line 574 (a left
brace, then a greedy dot-star with DOTALL, then a right brace), returning
group(0): the span from the leftmost left brace to the rightmost right
brace, provided the latter lies strictly after the former; otherwise no
match. -/
def braceSpan (t : List Char) : Option (List Char) :=
  match firstIdxOf lbrace t, lastIdxOf rbrace t with
  | some i, some j => if i < j then some ((t.drop i).take (j - i + 1)) else none
  | _, _ => none

/-- JSON values as produced by the Python json.loads decoder.  Objects
are association lists in insertion order (Python dicts); integer-syntax
numbers are inum (Python int); numbers written with a fraction or
exponent, and the NaN and Infinity extensions, are fnum carrying the
matched literal (Python float, whose numeric value is not needed by any
claim). -/
inductive Json where
  | null
  | jbool (b : Bool)
  | inum (n : Int)
  | fnum (raw : String)
  | jstr (s : String)
  | arr (elems : List Json)
  | obj (members : List (String × Json))

/-- Model of Python dict insertion: an existing key keeps its position
and gets the new value, a new key is appended. -/
def insertKey : List (String × Json) → String → Json → List (String × Json)
  | [], k, v => [(k, v)]
  | (k0, v0) :: rest, k, v =>
    if k0 == k then (k0, v) :: rest else (k0, v0) :: insertKey rest k v

/-- Model of the Python expression d.get(k, default) on a decoded dict. -/
def pyDictGet : List (String × Json) → String → Json → Json
  | [], _, d => d
  | (k0, v0) :: rest, k, d => if k0 == k then v0 else pyDictGet rest k d

/-- Value of a hexadecimal digit, if any. -/
def hexVal (c : Char) : Option Nat :=
  if c.isDigit then some (c.toNat - 48)
  else if 97 ≤ c.toNat ∧ c.toNat ≤ 102 then some (c.toNat - 87)
  else if 65 ≤ c.toNat ∧ c.toNat ≤ 70 then some (c.toNat - 55)
  else none

/-- The single-character JSON string escapes. -/
def escMap (e : Char) : Option Char :=
  if e == '"' then some '"'
  else if e == '\\' then some '\\'
  else if e == '/' then some '/'
  else if e == 'b' then some (Char.ofNat 8)
  else if e == 'f' then some (Char.ofNat 12)
  else if e == 'n' then some '\n'
  else if e == 'r' then some '\r'
  else if e == 't' then some '\t'
  else none

/-- Body of a JSON string literal, as scanned by the json module in
strict mode after the opening quote: ordinary characters up to the
closing quote, rejecting unescaped control characters, with the standard
escapes and backslash-u escapes including surrogate-pair combination.
(A lone surrogate, which Python would keep in the str, has no Char
representation and is mapped through Char.ofNat; no claim exercises
this corner.)  The fuel argument strictly exceeds the input length. -/
def parseStrChars : Nat → List Char → Option (List Char × List Char)
  | 0, _ => none
  | _ + 1, [] => none
  | fuel + 1, c :: r =>
    if c == '"' then some ([], r)
    else if c == '\\' then
      match r with
      | [] => none
      | e :: r2 =>
        if e == 'u' then
          match r2 with
          | h1 :: h2 :: h3 :: h4 :: r3 =>
            match hexVal h1, hexVal h2, hexVal h3, hexVal h4 with
            | some a, some b, some c2, some d =>
              let n := ((a * 16 + b) * 16 + c2) * 16 + d
              if 55296 ≤ n ∧ n ≤ 56319 then
                match r3 with
                | b1 :: u2 :: rr =>
                  if b1 == '\\' && u2 == 'u' then
                    match rr with
                    | g1 :: g2 :: g3 :: g4 :: r4 =>
                      match hexVal g1, hexVal g2, hexVal g3, hexVal g4 with
                      | some a2, some b2, some c3, some d2 =>
                        let n2 := ((a2 * 16 + b2) * 16 + c3) * 16 + d2
                        if 56320 ≤ n2 ∧ n2 ≤ 57343 then
                          (parseStrChars fuel r4).map
                            (fun pr => (Char.ofNat (65536 + (n - 55296) * 1024 + (n2 - 56320)) :: pr.1, pr.2))
                        else
                          (parseStrChars fuel r3).map (fun pr => (Char.ofNat n :: pr.1, pr.2))
                      | _, _, _, _ => none
                    | _ => none
                  else
                    (parseStrChars fuel r3).map (fun pr => (Char.ofNat n :: pr.1, pr.2))
                | _ =>
                  (parseStrChars fuel r3).map (fun pr => (Char.ofNat n :: pr.1, pr.2))
              else
                (parseStrChars fuel r3).map (fun pr => (Char.ofNat n :: pr.1, pr.2))
            | _, _, _, _ => none
          | _ => none
        else
          match escMap e with
          | some ec => (parseStrChars fuel r2).map (fun pr => (ec :: pr.1, pr.2))
          | none => none
    else if c.toNat < 32 then none
    else (parseStrChars fuel r).map (fun pr => (c :: pr.1, pr.2))

/-- Decimal value of a digit list. -/
def digitsVal (ds : List Char) : Nat := ds.foldl (fun a c => a * 10 + (c.toNat - 48)) 0

/-- Continue a number token after its integer digits: an optional
fraction (dot plus at least one digit) and an optional exponent, exactly
the groups of the json module NUMBER_RE regex.  Integer-syntax numbers
become Python ints, the rest become floats carrying their literal. -/
def numTail (neg : Bool) (intDs : List Char) (rest : List Char) : Option (Json × List Char) :=
  let fracRes : List Char × List Char :=
    match rest with
    | '.' :: r2 =>
      let fds := r2.takeWhile Char.isDigit
      if fds.isEmpty then ([], rest) else ( '.' :: fds, r2.drop fds.length)
    | _ => ([], rest)
  let fracDs := fracRes.1
  let rest2 := fracRes.2
  let expRes : List Char × List Char :=
    match rest2 with
    | e :: r2 =>
      if e == 'e' || e == 'E' then
        match r2 with
        | s :: r3 =>
          if s == '+' || s == '-' then
            let eds := r3.takeWhile Char.isDigit
            if eds.isEmpty then ([], rest2) else (e :: s :: eds, r3.drop eds.length)
          else
            let eds := r2.takeWhile Char.isDigit
            if eds.isEmpty then ([], rest2) else (e :: eds, r2.drop eds.length)
        | [] => ([], rest2)
      else ([], rest2)
    | [] => ([], rest2)
  let expDs := expRes.1
  let rest3 := expRes.2
  if fracDs.isEmpty && expDs.isEmpty then
    let v : Int := Int.ofNat (digitsVal intDs)
    some (Json.inum (if neg then -v else v), rest)
  else
    let sign : List Char := if neg then [ '-'] else []
    some (Json.fnum (String.mk (sign ++ intDs ++ fracDs ++ expDs)), rest3)

/-- A number token at the current position, per the json module scanner:
the NUMBER_RE regex (optional minus; a single zero or a nonzero-led digit
run; optional fraction and exponent), with the -Infinity extension. -/
def parseNumberTok (l : List Char) : Option (Json × List Char) :=
  let signRes : Bool × List Char :=
    match l with
    | '-' :: r => (true, r)
    | _ => (false, l)
  let neg := signRes.1
  let l1 := signRes.2
  match l1 with
  | [] => none
  | c :: r =>
    if c == '0' then numTail neg [ '0'] r
    else if c.isDigit then
      let ds := l1.takeWhile Char.isDigit
      numTail neg ds (l1.drop ds.length)
    else if neg && ([ 'I', 'n', 'f', 'i', 'n', 'i', 't', 'y'].isPrefixOf l1) then
      some (Json.fnum ("-Infinity"), l1.drop 8)
    else none

/-- Members of a JSON object after the opening brace (whitespace already
skipped, at least one member present), as scanned by the json module:
a double-quoted key, a colon, a value, then a comma or the closing
brace.  pv scans one value; the fuel strictly exceeds the number of
members. -/
def parseMembers (pv : List Char → Option (Json × List Char)) :
    Nat → List Char → List (String × Json) → Option (Json × List Char)
  | 0, _, _ => none
  | fuel + 1, l, acc =>
    match l with
    | '"' :: r =>
      match parseStrChars (r.length + 1) r with
      | none => none
      | some (kcs, r2) =>
        match skipWs r2 with
        | ':' :: r4 =>
          match pv (skipWs r4) with
          | none => none
          | some (v, r5) =>
            let acc2 := insertKey acc (String.mk kcs) v
            match skipWs r5 with
            | ',' :: r7 => parseMembers pv fuel (skipWs r7) acc2
            | c6 :: r7 => if c6 == rbrace then some (Json.obj acc2, r7) else none
            | [] => none
        | _ => none
    | _ => none

/-- Elements of a JSON array after the opening bracket (whitespace
already skipped, at least one element present). -/
def parseElems (pv : List Char → Option (Json × List Char)) :
    Nat → List Char → List Json → Option (Json × List Char)
  | 0, _, _ => none
  | fuel + 1, l, acc =>
    match pv l with
    | none => none
    | some (v, r) =>
      match skipWs r with
      | ',' :: r3 => parseElems pv fuel (skipWs r3) (acc ++ [v])
      | ']' :: r3 => some (Json.arr (acc ++ [v]), r3)
      | _ => none

/-- One JSON value at the current position (no leading whitespace), as
dispatched by the json module scanner; pv scans nested values. -/
def parseValCore (pv : List Char → Option (Json × List Char)) (l : List Char) :
    Option (Json × List Char) :=
  match l with
  | [] => none
  | c :: r =>
    if c == '"' then
      (parseStrChars (r.length + 1) r).map (fun pr => (Json.jstr (String.mk pr.1), pr.2))
    else if c == lbrace then
      match skipWs r with
      | c1 :: rest => if c1 == rbrace then some (Json.obj [], rest)
                      else parseMembers pv ((c1 :: rest).length + 1) (c1 :: rest) []
      | [] => none
    else if c == '[' then
      match skipWs r with
      | ']' :: rest => some (Json.arr [], rest)
      | r1 => parseElems pv (r1.length + 1) r1 []
    else if [ 't', 'r', 'u', 'e'].isPrefixOf l then some (Json.jbool true, l.drop 4)
    else if [ 'f', 'a', 'l', 's', 'e'].isPrefixOf l then some (Json.jbool false, l.drop 5)
    else if [ 'n', 'u', 'l', 'l'].isPrefixOf l then some (Json.null, l.drop 4)
    else if [ 'N', 'a', 'N'].isPrefixOf l then some (Json.fnum ("NaN"), l.drop 3)
    else if [ 'I', 'n', 'f', 'i', 'n', 'i', 't', 'y'].isPrefixOf l then
      some (Json.fnum ("Infinity"), l.drop 8)
    else parseNumberTok l

/-- Fueled JSON value scanner (fuel strictly exceeds nesting depth). -/
def parseVal : Nat → List Char → Option (Json × List Char)
  | 0, _ => none
  | fuel + 1, l => parseValCore (fun l2 => parseVal fuel l2) l

/-- Model of Python json.loads: skip leading whitespace, scan one value,
require only whitespace to remain.  Returns none where json.loads raises
json.JSONDecodeError. -/
def json_loads (l : List Char) : Option Json :=
  match parseVal (l.length + 1) (skipWs l) with
  | some (v, rest) => if (skipWs rest).isEmpty then some v else none
  | none => none

/-- The extraction chain of parse_ai_response (app.py lines 571-590) on
the already-stripped text: for each pattern in order (labelled fence, any
fence, greedy brace span) take its leftmost match and return its decode
if json.loads succeeds, otherwise continue; finally try decoding the
whole text; if everything fails, raise ValueError.  The ValueError is
modelled as the error branch; its message in the source interpolates the
decoder error and the raw text, and the model carries the raw text. -/
def parseChain (t : List Char) : Except String Json :=
  match (searchFence fenceJsonOpen t).bind json_loads with
  | some v => Except.ok v
  | none =>
    match (searchFence ticks t).bind json_loads with
    | some v => Except.ok v
    | none =>
      match (braceSpan t).bind json_loads with
      | some v => Except.ok v
      | none =>
        match json_loads t with
        | some v => Except.ok v
        | none => Except.error (String.mk t)

/-- Model of parse_ai_response (app.py lines 562-590): strip the raw
response text, then run the extraction chain. -/
def parse_ai_response (response_text : String) : Except String Json :=
  parseChain (pyStrip response_text.data)

/-- The candidate list of the specification, in its stated order: the
labelled-fence extract, the any-fence extract, the greedy brace span, and
the entire trimmed text. -/
def spec_candidates (t : List Char) : List (Option (List Char)) :=
  [searchFence fenceJsonOpen t, searchFence ticks t, braceSpan t, some t]

/-- First candidate on which json decoding succeeds, and its decode. -/
def firstDecode : List (Option (List Char)) → Option Json
  | [] => none
  | c :: cs =>
    match c.bind json_loads with
    | some v => some v
    | none => firstDecode cs

/-- Whether a decoded value is a JSON object (a Python dict). -/
def isObjV : Json → Bool
  | Json.obj _ => true
  | _ => false

/-- Modelled from the spec: the decode of the first candidate that
parses as a single JSON object, skipping candidates that decode to a
non-object value (the wording of spec section 4.2 step 2).  This is the
spec-side reading compared against parseChain. -/
def firstObjectDecode : List (Option (List Char)) → Option Json
  | [] => none
  | c :: cs =>
    match c.bind json_loads with
    | some v => if isObjV v then some v else firstObjectDecode cs
    | none => firstObjectDecode cs

/-- An uploaded or captured image, opaque to the analysis claims. -/
structure UploadedFile where
  bytes : List Nat

/-- Model of analyze_product (app.py lines 592-641).  Because of the
dedent at line 598, the body of the Python function consists only of the
docstring at lines 593-597: a call returns None (modelled as none)
without touching the Gemini pipeline.  The statements at lines 598-641
are module-level code and are modelled separately below. -/
def analyze_product (images : List UploadedFile) (location : String) : Option Json :=
  none

/-- The display fields resolved by render_alternative (app.py lines
527-534); Python None is modelled as Json.null. -/
structure AltFields where
  product_name : Json
  why_more_honest : Json
  estimated_score : Json

/-- Model of the normalization step of render_alternative (app.py lines
523-534): a bare string becomes the product name with empty explanation
and no estimated score; a dict is read with dict.get and the defaults of
the source; any other value would raise AttributeError on the .get call,
modelled as none. -/
def render_alternative_fields : Json → Option AltFields
  | Json.jstr s => some ⟨Json.jstr s, Json.jstr (""), Json.null⟩
  | Json.obj kvs =>
    some ⟨pyDictGet kvs ("product_name") (Json.jstr ("No alternative found")),
          pyDictGet kvs ("why_more_honest") (Json.jstr ("")),
          pyDictGet kvs ("estimated_score") Json.null⟩
  | _ => none

/-- Outcome of the requests.get call in get_user_location: an exception
(including timeout), or a response with a status code and, when the body
decodes as a JSON object, its members (none models a body on which
response.json() raises). -/
inductive HttpOutcome where
  | exc
  | resp (status : Nat) (body : Option (List (String × Json)))

/-- The dict returned by get_user_location (app.py lines 309-322). -/
structure LocationRecord where
  country_code : Json
  country_name : Json
  city : Json
  full_location : Json

/-- The static fallback record of app.py lines 317-322. -/
def fallback_location : LocationRecord :=
  ⟨Json.jstr ("OTHER"), Json.jstr ("International"), Json.jstr (""),
   Json.jstr ("International")⟩

/-- Python truthiness of a decoded JSON value.  For floats the literal
is inspected: a mantissa consisting only of zeros, dots and signs is the
zero float (underflow of tiny nonzero literals to 0.0 is a floating
point corner outside this model and outside every claim). -/
def pyTruthy : Json → Bool
  | Json.null => false
  | Json.jbool b => b
  | Json.inum n => !(n == 0)
  | Json.fnum raw =>
    !((raw.data.takeWhile (fun c => !(c == 'e' || c == 'E'))).all
        (fun c => c == '0' || c == '.' || c == '-' || c == '+'))
  | Json.jstr s => !s.isEmpty
  | Json.arr xs => !xs.isEmpty
  | Json.obj kvs => !kvs.isEmpty

/-- Python str() of a decoded JSON value as used by the f-string at
app.py line 313.  Every value reached by a claim is a string; the repr
of containers and floats is not modelled further. -/
def pyToStr : Json → String
  | Json.jstr s => s
  | Json.null => "None"
  | Json.jbool true => "True"
  | Json.jbool false => "False"
  | Json.inum n => toString n
  | Json.fnum raw => raw
  | Json.arr _ => "<list repr not modelled>"
  | Json.obj _ => "<dict repr not modelled>"

/-- Model of get_user_location (app.py lines 300-322) as a function of
the HTTP outcome: any exception is swallowed and yields the fallback; a
non-200 status falls out of the try block and yields the fallback; a 200
response is read with dict.get and the defaults of the source, and
full_location is the f-string city-comma-country when city is truthy,
else the raw country_name value. -/
def get_user_location (o : HttpOutcome) : LocationRecord :=
  match o with
  | HttpOutcome.exc => fallback_location
  | HttpOutcome.resp status body =>
    if status == 200 then
      match body with
      | none => fallback_location
      | some data =>
        let country_code := pyDictGet data ("country_code") (Json.jstr ("OTHER"))
        let country_name := pyDictGet data ("country_name") (Json.jstr ("International"))
        let city := pyDictGet data ("city") (Json.jstr (""))
        ⟨country_code, country_name, city,
         if pyTruthy city then Json.jstr (pyToStr city ++ (", ") ++ pyToStr country_name)
         else country_name⟩
    else fallback_location

/-- Python exceptions reached by the modelled fragments. -/
inductive PyExc where
  | nameError (name : String)
  | valueError (msg : String)
  | attributeError (msg : String)
  | moduleLevelReturn

/-- A module-level Python statement, recorded with the global names its
evaluation reads (dotted attribute access reads its leading name). -/
inductive Stmt where
  | errorBanner (msg : String)
  | assign (target : String) (uses : List String)
  | exprStmt (uses : List String)
  | forIn (iterable : String) (target : String) (bodyUses : List String)
  | ret (uses : List String)

/-- First referenced name missing from the environment. -/
def firstMissingName (env uses : List String) : String :=
  ((uses.find? (fun u => !(env.contains u))).getD (""))

/-- Run module-level statements over an environment of bound global
names, collecting error banners; evaluation of an unbound name raises
NameError.  A return statement at module level cannot be executed at all
(Python rejects the module with SyntaxError before running anything);
reaching it in this runner is flagged as moduleLevelReturn. -/
def runStmts : List Stmt → List String → List String → List String × Option PyExc
  | [], _, banners => (banners, none)
  | stmt :: rest, env, banners =>
    match stmt with
    | Stmt.errorBanner msg => runStmts rest env (banners ++ [msg])
    | Stmt.assign tgt uses =>
      if uses.all (fun u => env.contains u) then runStmts rest (env ++ [tgt]) banners
      else (banners, some (PyExc.nameError (firstMissingName env uses)))
    | Stmt.exprStmt uses =>
      if uses.all (fun u => env.contains u) then runStmts rest env banners
      else (banners, some (PyExc.nameError (firstMissingName env uses)))
    | Stmt.forIn iter tgt bodyUses =>
      if env.contains iter then
        if bodyUses.all (fun u => (env ++ [tgt]).contains u) then runStmts rest env banners
        else (banners, some (PyExc.nameError (firstMissingName (env ++ [tgt]) bodyUses)))
      else (banners, some (PyExc.nameError iter))
    | Stmt.ret _ => (banners, some PyExc.moduleLevelReturn)

/-- Whether a statement list contains a module-level return statement,
which makes the whole file a SyntaxError under Python compilation. -/
def containsModuleReturn (l : List Stmt) : Bool :=
  l.any (fun s => match s with | Stmt.ret _ => true | _ => false)

/-- The module-level global names bound before line 598 of app.py:
the imports of lines 12-19 (re-bound at 599-600) and the definitions of
lines 282-592.  Neither images nor location is among them. -/
def module_env_at_598 : List String :=
  ["st", "genai", "json", "re", "pd", "Image", "io", "requests",
   "GLOBAL_REGIONS", "get_user_location", "THE_4_LAWS",
   "GEMINI_PROMPT_TEMPLATE", "get_score_color", "render_score_card",
   "render_deductions_table", "render_alternative", "parse_ai_response",
   "analyze_product"]

/-- The statements of the else branch of the GEMINI_API_KEY check
(app.py lines 604-641), which due to the dedent at line 598 live at
module level: the error banner (605), the model construction (608-616),
the pil_images initialisation (619), the loop over the unbound name
images (620-623), the prompt formatting (626-629, reading the unbound
name location), the content assembly (632-635), the Gemini call (638)
and the return statement (641). -/
def gemini_key_missing_branch : List Stmt :=
  [Stmt.errorBanner ("API Key not found! Please check your Streamlit Secrets."),
   Stmt.assign ("model") ["genai"],
   Stmt.assign ("pil_images") [],
   Stmt.forIn ("images") ("img") ["pil_images", "Image", "img"],
   Stmt.assign ("prompt") ["GEMINI_PROMPT_TEMPLATE", "THE_4_LAWS", "location"],
   Stmt.assign ("content") ["prompt"],
   Stmt.forIn ("pil_images") ("pil_img") ["content", "pil_img"],
   Stmt.assign ("response") ["model", "content"],
   Stmt.ret ["parse_ai_response", "response"]]

/-- The single statement of the then branch of the key check (app.py
line 603): genai.configure with the secret. -/
def gemini_key_present_branch : List Stmt :=
  [Stmt.exprStmt ["genai", "st"]]

/-- The session state touched by the scan flow: the captured_images
list and the capture_step counter (app.py lines 756-759). -/
structure SessionState where
  captured_images : List UploadedFile
  capture_step : Nat

/-- The error banner of the two except branches of the analysis handler
(app.py lines 956-969): ValueError gets the JSON-parsing banner, every
other exception the generic analysis banner. -/
def exceptBanner : PyExc → String
  | PyExc.valueError m => "JSON Parsing Error: " ++ m
  | PyExc.nameError n => "Analysis Error: name " ++ n ++ " is not defined"
  | PyExc.attributeError m => "Analysis Error: " ++ m
  | PyExc.moduleLevelReturn => "Analysis Error: return outside function"

/-- Model of the analysis button handler body (app.py lines 865-969) as
a function of the session state, of the outcome of the analyze_product
call, and of the outcome of the result-handling statements (lines
875-954, which read the result but never write the captured-images
state).  The source clears captured_images and resets capture_step to 1
at lines 870-873, immediately after analyze_product returns and before
any result handling; the except branches only render a banner. -/
def run_scan (s : SessionState) (analysisOutcome : Except PyExc (Option Json))
    (renderOutcome : Option Json → Option PyExc) : SessionState × Option String :=
  match analysisOutcome with
  | Except.error e => (s, some (exceptBanner e))
  | Except.ok result =>
    let cleared : SessionState := ⟨[], 1⟩
    match renderOutcome result with
    | some e => (cleared, some (exceptBanner e))
    | none => (cleared, none)

/-- Events of the camera capture flow (app.py lines 772-822). -/
inductive CaptureEvent where
  | capture (img : UploadedFile)
  | clearRetake
  | skip

/-- Initial session state (app.py lines 756-759). -/
def initCaptureState : SessionState := ⟨[], 1⟩

/-- One step of the camera flow: the camera widget is only rendered
while fewer than 3 photos are captured (app.py line 793), and a new
photo appends one image and increments the step counter (lines 808-811);
the clear button resets both fields (lines 785-788); skipping changes
nothing (lines 814-816). -/
def capture_transition (s : SessionState) : CaptureEvent → SessionState
  | CaptureEvent.capture img =>
    if s.captured_images.length < 3 then
      ⟨s.captured_images ++ [img], s.capture_step + 1⟩
    else s
  | CaptureEvent.clearRetake => ⟨[], 1⟩
  | CaptureEvent.skip => s

/-- The upload flow (app.py lines 827-836): a falsy (absent or empty)
uploader result leaves product_images empty, otherwise the uploaded list
is truncated to its first 3 elements. -/
def upload_select : Option (List UploadedFile) → List UploadedFile
  | none => []
  | some fs => if fs.isEmpty then [] else fs.take 3

/-- Whether the scan action fires: the button is disabled while the
image list is empty (app.py line 854) and the handler is additionally
guarded by a positive length (line 861). -/
def scan_submits (product_images : List UploadedFile) : Bool :=
  !product_images.isEmpty

/-- The two brace characters are distinct. -/
theorem lbrace_ne_rbrace : lbrace ≠ rbrace := by decide

/-- Transitivity of the boolean prefix test on character lists. -/
theorem prefixOf_trans : ∀ (a b c : List Char),
    a.isPrefixOf b = true → b.isPrefixOf c = true → a.isPrefixOf c = true := by
  intro a b c h1 h2
  rw [ List.isPrefixOf_iff_prefix] at h1 h2 ⊢
  exact h1.trans h2

/-- If three backticks occur nowhere in the text, a fence search with an
opener that itself starts with three backticks finds nothing. -/
theorem searchFence_eq_none (op : List Char) (hop : ticks.isPrefixOf op = true) :
    ∀ t, containsSeq ticks t = false → searchFence op t = none := by
  intro t
  induction t with
  | nil => intro _; rfl
  | cons c r ih =>
    intro h
    rw [containsSeq] at h
    have h12 := Bool.or_eq_false_iff.mp h
    have hpre : op.isPrefixOf (c :: r) = false := by
      cases hp : op.isPrefixOf (c :: r) with
      | false => rfl
      | true =>
        have := prefixOf_trans ticks op (c :: r) hop hp
        rw [h12.1] at this
        exact absurd this (by simp)
    simp only [searchFence, hpre, Bool.false_eq_true, if_false]
    exact ih h12.2

/-- Adding zero under Option.map is the identity. -/
theorem map_add_zero (o : Option Nat) : o.map (· + 0) = o := by
  cases o <;> rfl

/-- Composing two index shifts under Option.map. -/
theorem map_map_add (o : Option Nat) (m : Nat) :
    (o.map (· + m)).map (· + 1) = o.map (· + (m + 1)) := by
  cases o <;> simp [Nat.add_assoc]

/-- Searching for a character past a block that avoids it shifts the
index by the length of the block. -/
theorem firstIdxOf_append_free (ch : Char) : ∀ (pre rest : List Char),
    pre.all (fun a => !(a == ch)) = true →
    firstIdxOf ch (pre ++ rest) = (firstIdxOf ch rest).map (· + pre.length) := by
  intro pre
  induction pre with
  | nil => intro rest _; simp [map_add_zero]
  | cons a pre ih =>
    intro rest hfree
    rw [List.all_cons, Bool.and_eq_true] at hfree
    have hfree2 := hfree
    have ha : (a == ch) = false := by
      cases hq : (a == ch) with
      | false => rfl
      | true => rw [hq] at hfree2; exact absurd hfree2.1 (by simp)
    simp only [List.cons_append, firstIdxOf, ha, Bool.false_eq_true, if_false,
      List.length_cons, List.append_eq]
    rw [ih rest hfree2.2]
    exact map_map_add (firstIdxOf ch rest) pre.length

/-- A block avoiding both braces avoids the left one. -/
theorem all_free_left (pre : List Char)
    (h : pre.all (fun a => !(a == lbrace || a == rbrace)) = true) :
    pre.all (fun a => !(a == lbrace)) = true := by
  rw [List.all_eq_true] at h ⊢
  intro a ha
  have := h a ha
  simp only [Bool.not_eq_true', Bool.or_eq_false_iff] at this
  simp [this.1]

/-- A block avoiding both braces avoids the right one. -/
theorem all_free_right (post : List Char)
    (h : post.all (fun a => !(a == lbrace || a == rbrace)) = true) :
    post.all (fun a => !(a == rbrace)) = true := by
  rw [List.all_eq_true] at h ⊢
  intro a ha
  have := h a ha
  simp only [Bool.not_eq_true', Bool.or_eq_false_iff] at this
  simp [this.2]

/-- The greedy brace-span match on a text that is brace-free prose
around a block starting with a left brace and ending with a right brace
recovers exactly that block. -/
theorem braceSpan_decomp (pre mid post : List Char)
    (hpre : pre.all (fun a => !(a == lbrace || a == rbrace)) = true)
    (hpost : post.all (fun a => !(a == lbrace || a == rbrace)) = true)
    (hhead : mid.head? = some lbrace)
    (hlast : mid.getLast? = some rbrace) :
    braceSpan (pre ++ mid ++ post) = some mid := by
  cases mid with
  | nil => simp at hhead
  | cons m0 mid2 =>
    have hm0 : m0 = lbrace := by simpa using hhead
    subst hm0
    have hmid2 : mid2 ≠ [] := by
      intro hnil
      subst hnil
      simp at hlast
      exact lbrace_ne_rbrace hlast
    have hmlen : 1 ≤ mid2.length := by
      cases mid2 with
      | nil => exact absurd rfl hmid2
      | cons _ _ => simp
    have hfi : firstIdxOf lbrace (pre ++ (lbrace :: mid2) ++ post) = some pre.length := by
      rw [List.append_assoc,
        firstIdxOf_append_free lbrace pre ((lbrace :: mid2) ++ post) (all_free_left pre hpre)]
      simp [firstIdxOf]
    have hrev : (pre ++ (lbrace :: mid2) ++ post).reverse
        = post.reverse ++ ((lbrace :: mid2).reverse ++ pre.reverse) := by
      rw [List.reverse_append, List.reverse_append]
    have hmidrev : ((lbrace :: mid2).reverse).head? = some rbrace := by
      rw [List.head?_reverse]
      exact hlast
    have hfir : firstIdxOf rbrace (pre ++ (lbrace :: mid2) ++ post).reverse
        = some post.length := by
      rw [hrev, firstIdxOf_append_free rbrace post.reverse _
        (by rw [List.all_reverse]; exact all_free_right post hpost)]
      cases hc : (lbrace :: mid2).reverse with
      | nil => simp at hc
      | cons r0 rr =>
        rw [hc] at hmidrev
        have hr0 : r0 = rbrace := by simpa using hmidrev
        subst hr0
        simp [firstIdxOf, List.length_reverse]
    have hlen : (pre ++ (lbrace :: mid2) ++ post).length
        = pre.length + (mid2.length + 1) + post.length := by
      simp [List.length_append]
      omega
    have hli : lastIdxOf rbrace (pre ++ (lbrace :: mid2) ++ post)
        = some (pre.length + mid2.length) := by
      rw [lastIdxOf, hfir]
      simp only [Option.map_some']
      congr 1
      rw [hlen]
      omega
    rw [braceSpan, hfi, hli]
    dsimp only
    rw [if_pos (by omega)]
    congr 1
    have harith : pre.length + mid2.length - pre.length + 1 = mid2.length + 1 := by omega
    rw [harith]
    rw [List.append_assoc, List.drop_left]
    have : mid2.length + 1 = (lbrace :: mid2).length := by simp
    rw [this, List.take_left]

/-- If the two fence searches find nothing and the brace span decodes,
the chain returns that decode. -/
theorem parseChain_ok_of_braceSpan (t mid : List Char) (v : Json)
    (h1 : searchFence fenceJsonOpen t = none)
    (h2 : searchFence ticks t = none)
    (h3 : braceSpan t = some mid)
    (hv : json_loads mid = some v) :
    parseChain t = Except.ok v := by
  simp [parseChain, h1, h2, h3, hv]

/-- If the chain returns no value, it raises the ValueError carrying
the stripped text. -/
theorem parseChain_fail_shape (t : List Char)
    (h : ∀ v, parseChain t ≠ Except.ok v) :
    parseChain t = Except.error (String.mk t) := by
  cases h1 : (searchFence fenceJsonOpen t).bind json_loads with
  | some v => exact absurd (by simp [parseChain, h1]) (h v)
  | none =>
    cases h2 : (searchFence ticks t).bind json_loads with
    | some v => exact absurd (by simp [parseChain, h1, h2]) (h v)
    | none =>
      cases h3 : (braceSpan t).bind json_loads with
      | some v => exact absurd (by simp [parseChain, h1, h2, h3]) (h v)
      | none =>
        cases h4 : json_loads t with
        | some v => exact absurd (by simp [parseChain, h1, h2, h3, h4]) (h v)
        | none => simp [parseChain, h1, h2, h3, h4]

/-- The extraction chain of the source coincides with taking the
specification candidates in their stated order and returning the decode
of the first one on which json decoding succeeds. -/
theorem chain_eq_firstDecode (t : List Char) :
    parseChain t =
      (match firstDecode (spec_candidates t) with
       | some v => Except.ok v
       | none => Except.error (String.mk t)) := by
  rw [spec_candidates]
  cases h1 : (searchFence fenceJsonOpen t).bind json_loads with
  | some v => simp [parseChain, firstDecode, h1]
  | none =>
    cases h2 : (searchFence ticks t).bind json_loads with
    | some v => simp [parseChain, firstDecode, h1, h2]
    | none =>
      cases h3 : (braceSpan t).bind json_loads with
      | some v => simp [parseChain, firstDecode, h1, h2, h3]
      | none =>
        cases h4 : json_loads t with
        | some v => simp [parseChain, firstDecode, h1, h2, h3, h4]
        | none => simp [parseChain, firstDecode, h1, h2, h3, h4]

/-- C1 counterexample: on the raw text of the spec example, which
contains no JSON, parse_ai_response raises ValueError (the error branch
of the model) instead of returning a sentinel result with score 0 and
verdict Error; the claimed sentinel never exists. -/
theorem C1_counterexample_raises :
    parse_ai_response ("I cannot analyze this image.") =
      Except.error ("I cannot analyze this image.") := rfl

/-- C1 (amended): for every raw input text from which no extraction
strategy yields decodable JSON, parse_ai_response raises a ValueError
whose message carries the stripped raw text (modelled as the error
branch); it returns no sentinel result.  The module-level caller catches
the ValueError at app.py line 956 and renders an error banner. -/
theorem C1_parse_failure_raises (raw : String)
    (h : ∀ v, parse_ai_response raw ≠ Except.ok v) :
    parse_ai_response raw = Except.error (String.mk (pyStrip raw.data)) :=
  parseChain_fail_shape (pyStrip raw.data) h

/-- C1 witness: the amended theorem applied to the spec example. -/
theorem C1_parse_failure_raises_witness :
    parse_ai_response ("I cannot analyze this image.") =
      Except.error (String.mk (pyStrip ("I cannot analyze this image.").data)) := by
  apply C1_parse_failure_raises
  intro v hv
  have heval : parse_ai_response ("I cannot analyze this image.") =
      Except.error ("I cannot analyze this image.") := rfl
  rw [heval] at hv
  exact Except.noConfusion hv

/-- C2: for every list of images and every location string,
analyze_product returns None: the dedent at app.py line 598 leaves only
the docstring in the function body, so a call never runs the analysis
pipeline (the pipeline statements are module-level code, modelled by
gemini_key_missing_branch). -/
theorem C2_analyze_product_returns_none :
    ∀ (images : List UploadedFile) (location : String),
      analyze_product images location = none := fun _ _ => rfl

/-- C3 counterexample: on a labelled fence containing a JSON array
followed by prose containing a JSON object, the code returns the decode
of the fenced array, although the first candidate that parses as a JSON
object (the reading of the claim, firstObjectDecode) is the brace span
holding the object. -/
theorem C3_counterexample_nonobject_first :
    parse_ai_response ("```json\n[1, 2]\n```\nAlso: \x7b\"a\": 1\x7d") =
        Except.ok (Json.arr [Json.inum 1, Json.inum 2]) ∧
    firstObjectDecode (spec_candidates
        (pyStrip ("```json\n[1, 2]\n```\nAlso: \x7b\"a\": 1\x7d").data)) =
        some (Json.obj [(("a"), Json.inum 1)]) :=
  ⟨rfl, rfl⟩

/-- C3 (amended): extraction tries the candidates in the fixed order
(labelled fence, any fence, greedy brace span, entire trimmed text) and
returns the decode of the first candidate on which JSON decoding
succeeds, whatever JSON value that is, not necessarily an object; in
particular the fence-stripping example yields score 42 and verdict ok,
and with two sequential fenced JSON blocks the result is decoded from
the first block in document order. -/
theorem C3_extraction_order :
    (∀ raw : String,
      parse_ai_response raw =
        (match firstDecode (spec_candidates (pyStrip raw.data)) with
         | some v => Except.ok v
         | none => Except.error (String.mk (pyStrip raw.data)))) ∧
    parse_ai_response ("Here you go:\n```json\n\x7b\"score\": 42, \"verdict\": \"ok\"\x7d\n```\nThanks!") =
      Except.ok (Json.obj [(("score"), Json.inum 42), (("verdict"), Json.jstr ("ok"))]) ∧
    parse_ai_response ("First:\n```json\n\x7b\"score\": 1, \"verdict\": \"first\"\x7d\n```\nSecond:\n```json\n\x7b\"score\": 2, \"verdict\": \"second\"\x7d\n```") =
      Except.ok (Json.obj [(("score"), Json.inum 1), (("verdict"), Json.jstr ("first"))]) :=
  ⟨fun raw => chain_eq_firstDecode (pyStrip raw.data), rfl, rfl⟩

/-- C4: on fence-free text that is brace-free prose around a single
valid JSON value spanning from a left brace to a right brace, the
brace-span strategy matches greedily from the leftmost left brace to the
rightmost right brace, so the whole object, including nested objects and
arrays, is decoded intact. -/
theorem C4_brace_span_greedy (raw : String) (pre mid post : List Char) (v : Json)
    (hsplit : pyStrip raw.data = pre ++ mid ++ post)
    (hnofence : containsSeq ticks (pyStrip raw.data) = false)
    (hpre : pre.all (fun a => !(a == lbrace || a == rbrace)) = true)
    (hpost : post.all (fun a => !(a == lbrace || a == rbrace)) = true)
    (hhead : mid.head? = some lbrace)
    (hlast : mid.getLast? = some rbrace)
    (hv : json_loads mid = some v) :
    parse_ai_response raw = Except.ok v := by
  have h1 : searchFence fenceJsonOpen (pyStrip raw.data) = none :=
    searchFence_eq_none fenceJsonOpen (by rfl) _ hnofence
  have h2 : searchFence ticks (pyStrip raw.data) = none :=
    searchFence_eq_none ticks (by rfl) _ hnofence
  have h3 : braceSpan (pyStrip raw.data) = some mid := by
    rw [hsplit]
    exact braceSpan_decomp pre mid post hpre hpost hhead hlast
  exact parseChain_ok_of_braceSpan (pyStrip raw.data) mid v h1 h2 h3 hv

/-- C4 witness: the greedy brace span on the spec example with the
nested deductions array, decoded intact. -/
theorem C4_brace_span_greedy_witness :
    parse_ai_response ("Prose before. \x7b\"score\": 10, \"deductions\": [\x7b\"law\": \"A\", \"points\": -5, \"reason\": \"x\"\x7d], \"verdict\": \"v\"\x7d Trailing prose.") =
      Except.ok (Json.obj [(("score"), Json.inum 10),
        (("deductions"), Json.arr [Json.obj [(("law"), Json.jstr ("A")),
          (("points"), Json.inum (-5)), (("reason"), Json.jstr ("x"))]]),
        (("verdict"), Json.jstr ("v"))]) :=
  C4_brace_span_greedy
    ("Prose before. \x7b\"score\": 10, \"deductions\": [\x7b\"law\": \"A\", \"points\": -5, \"reason\": \"x\"\x7d], \"verdict\": \"v\"\x7d Trailing prose.")
    (("Prose before. ").data)
    (("\x7b\"score\": 10, \"deductions\": [\x7b\"law\": \"A\", \"points\": -5, \"reason\": \"x\"\x7d], \"verdict\": \"v\"\x7d").data)
    ((" Trailing prose.").data)
    (Json.obj [(("score"), Json.inum 10),
      (("deductions"), Json.arr [Json.obj [(("law"), Json.jstr ("A")),
        (("points"), Json.inum (-5)), (("reason"), Json.jstr ("x"))]]),
      (("verdict"), Json.jstr ("v"))])
    rfl rfl rfl rfl rfl rfl rfl

/-- C5 counterexample: an input that is exactly a valid JSON object can
still be hijacked by the fence patterns when a string member embeds a
labelled fence: here the direct decode is the object, but
parse_ai_response returns the integer 1 extracted from inside the
embedded fence, so extraction is not idempotent on every clean JSON
object. -/
theorem C5_counterexample_embedded_fence :
    json_loads (pyStrip ("\x7b\"a\": \"```json 1 ```\"\x7d").data) =
        some (Json.obj [(("a"), Json.jstr ("```json 1 ```"))]) ∧
    parse_ai_response ("\x7b\"a\": \"```json 1 ```\"\x7d") = Except.ok (Json.inum 1) :=
  ⟨rfl, rfl⟩

/-- C5 (amended): for every input whose trimmed form is exactly a valid
JSON object (leading left brace, trailing right brace) and contains no
three-backtick fence marker, parse_ai_response returns exactly the
direct JSON decode of the trimmed input. -/
theorem C5_clean_json_direct (raw : String) (v : Json)
    (hnofence : containsSeq ticks (pyStrip raw.data) = false)
    (hhead : (pyStrip raw.data).head? = some lbrace)
    (hlast : (pyStrip raw.data).getLast? = some rbrace)
    (hv : json_loads (pyStrip raw.data) = some v) :
    parse_ai_response raw = Except.ok v := by
  have h1 : searchFence fenceJsonOpen (pyStrip raw.data) = none :=
    searchFence_eq_none fenceJsonOpen (by rfl) _ hnofence
  have h2 : searchFence ticks (pyStrip raw.data) = none :=
    searchFence_eq_none ticks (by rfl) _ hnofence
  have h3 : braceSpan (pyStrip raw.data) = some (pyStrip raw.data) := by
    have hd := braceSpan_decomp [] (pyStrip raw.data) [] (by rfl) (by rfl) hhead hlast
    simpa using hd
  exact parseChain_ok_of_braceSpan (pyStrip raw.data) (pyStrip raw.data) v h1 h2 h3 hv

/-- C5 witness: the amended theorem applied to a clean JSON object with
surrounding whitespace. -/
theorem C5_clean_json_direct_witness :
    parse_ai_response ("   \x7b\"score\": 7\x7d  ") =
      Except.ok (Json.obj [(("score"), Json.inum 7)]) :=
  C5_clean_json_direct ("   \x7b\"score\": 7\x7d  ")
    (Json.obj [(("score"), Json.inum 7)]) rfl rfl rfl rfl

/-- C6: the alternative-shape normalization of render_alternative: a
bare string resolves to that product name with an empty explanation and
no estimated score (Python None, modelled as null); a record is read
with dict.get and the source defaults; both shapes normalize to the same
display fields, and the spec example with the bare string Brand X
Product resolves as claimed. -/
theorem C6_render_alternative_normalizes :
    (∀ s : String, render_alternative_fields (Json.jstr s) =
        some ⟨Json.jstr s, Json.jstr (""), Json.null⟩) ∧
    (∀ n w e : Json, render_alternative_fields (Json.obj
        [(("product_name"), n), (("why_more_honest"), w), (("estimated_score"), e)]) =
        some ⟨n, w, e⟩) ∧
    (render_alternative_fields (Json.obj []) =
        some ⟨Json.jstr ("No alternative found"), Json.jstr (""), Json.null⟩) ∧
    (∀ s : String, render_alternative_fields (Json.jstr s) =
        render_alternative_fields (Json.obj [(("product_name"), Json.jstr s)])) ∧
    (render_alternative_fields (Json.jstr ("Brand X Product")) =
        some ⟨Json.jstr ("Brand X Product"), Json.jstr (""), Json.null⟩) :=
  ⟨fun _ => rfl, fun _ _ _ => rfl, rfl, fun _ => rfl, rfl⟩

/-- C7: with the GEMINI_API_KEY secret absent the app does not show a
banner and keep running: the missing-key else branch (module-level after
the dedent) contains the return statement of app.py line 641, so the
whole file is rejected by Python compilation (SyntaxError: return
outside function) and the app crashes at startup; and even executing the
branch statement by statement would, right after the banner, hit the
unbound name images at line 620 and crash with NameError before the
analysis UI is built. -/
theorem C7_gemini_key_missing_crashes :
    containsModuleReturn gemini_key_missing_branch = true ∧
    runStmts gemini_key_missing_branch module_env_at_598 [] =
      (["API Key not found! Please check your Streamlit Secrets."],
       some (PyExc.nameError ("images"))) :=
  ⟨rfl, rfl⟩

/-- C8 counterexample: a run in which analyze_product returns normally
(with None, as it always does) and the result handling then raises: the
captured images are cleared all the same, because the source clears them
at app.py lines 870-873, before any result handling. -/
theorem C8_counterexample_cleared_on_render_failure :
    (run_scan ⟨[⟨[0]⟩], 2⟩ (Except.ok none)
        (fun _ => some (PyExc.attributeError
          ("NoneType object has no attribute get")))).1.captured_images = [] ∧
    (run_scan ⟨[⟨[0]⟩], 2⟩ (Except.ok none)
        (fun _ => some (PyExc.attributeError
          ("NoneType object has no attribute get")))).2 =
      some ("Analysis Error: NoneType object has no attribute get") ∧
    ([⟨[0]⟩] : List UploadedFile) ≠ [] :=
  ⟨rfl, rfl, by simp⟩

/-- C8 (amended): the captured-images session state is not cleared when
analyze_product itself raises, so the user can retry without
recapturing; it is cleared, and the step counter reset to 1, as soon as
analyze_product returns normally, before result handling, so an
exception raised during result handling occurs after the clearing. -/
theorem C8_scan_state_frame :
    (∀ (s : SessionState) (e : PyExc) (rf : Option Json → Option PyExc),
        (run_scan s (Except.error e) rf).1 = s) ∧
    (∀ (s : SessionState) (r : Option Json) (rf : Option Json → Option PyExc),
        (run_scan s (Except.ok r) rf).1 = ⟨[], 1⟩) := by
  constructor
  · intro s e rf; rfl
  · intro s r rf
    cases hrf : rf r <;> simp [run_scan, hrf]

/-- C9: the image batch is bounded: from the initial state every camera
event sequence leaves at most 3 captured images (the camera widget is
gated on fewer than 3), a capture appends exactly one image and
increments the step counter, the upload flow truncates to 3, and the
scan action fires exactly when at least one image is present. -/
theorem C9_image_batch_bounds :
    (∀ evts : List CaptureEvent,
        (evts.foldl capture_transition initCaptureState).captured_images.length ≤ 3) ∧
    (∀ (s : SessionState) (img : UploadedFile),
        capture_transition s (CaptureEvent.capture img) =
          if s.captured_images.length < 3 then
            ⟨s.captured_images ++ [img], s.capture_step + 1⟩
          else s) ∧
    (∀ fs : Option (List UploadedFile), (upload_select fs).length ≤ 3) ∧
    (∀ pi : List UploadedFile, scan_submits pi = true ↔ 1 ≤ pi.length) := by
  refine ⟨?_, fun s img => rfl, ?_, ?_⟩
  · have hstep : ∀ (evts : List CaptureEvent) (s : SessionState),
        s.captured_images.length ≤ 3 →
        (evts.foldl capture_transition s).captured_images.length ≤ 3 := by
      intro evts
      induction evts with
      | nil => intro s h; exact h
      | cons e evts ih =>
        intro s h
        apply ih
        cases e with
        | capture img =>
          simp only [capture_transition]
          split
          · simp [List.length_append]
            omega
          · exact h
        | clearRetake => simp [capture_transition]
        | skip => exact h
    intro evts
    exact hstep evts initCaptureState (by simp [initCaptureState])
  · intro fs
    cases fs with
    | none => simp [upload_select]
    | some l =>
      simp only [upload_select]
      split
      · simp
      · simp [List.length_take]
  · intro pi
    cases pi <;> simp [scan_submits]

/-- C10: get_user_location never raises: every exception of the request
(including timeout) and every non-200 status yields the static fallback
record with country code OTHER, name International, empty city and full
location International; a 200 response is read with dict.get, and the
full location is the f-string city-comma-country when a city is present,
else the raw country name. -/
theorem C10_get_user_location_fallback :
    (get_user_location HttpOutcome.exc = fallback_location) ∧
    (∀ (status : Nat) (body : Option (List (String × Json))), status ≠ 200 →
        get_user_location (HttpOutcome.resp status body) = fallback_location) ∧
    (get_user_location (HttpOutcome.resp 200 none) = fallback_location) ∧
    (∀ data : List (String × Json),
        (get_user_location (HttpOutcome.resp 200 (some data))).country_code =
            pyDictGet data ("country_code") (Json.jstr ("OTHER")) ∧
        (get_user_location (HttpOutcome.resp 200 (some data))).country_name =
            pyDictGet data ("country_name") (Json.jstr ("International")) ∧
        (get_user_location (HttpOutcome.resp 200 (some data))).city =
            pyDictGet data ("city") (Json.jstr (""))) ∧
    (∀ (data : List (String × Json)) (cityS countryS : String),
        pyDictGet data ("city") (Json.jstr ("")) = Json.jstr cityS →
        cityS.isEmpty = false →
        pyDictGet data ("country_name") (Json.jstr ("International")) = Json.jstr countryS →
        (get_user_location (HttpOutcome.resp 200 (some data))).full_location =
          Json.jstr (cityS ++ (", ") ++ countryS)) ∧
    (∀ data : List (String × Json),
        pyDictGet data ("city") (Json.jstr ("")) = Json.jstr ("") →
        (get_user_location (HttpOutcome.resp 200 (some data))).full_location =
          pyDictGet data ("country_name") (Json.jstr ("International"))) := by
  refine ⟨rfl, ?_, rfl, fun data => ⟨rfl, rfl, rfl⟩, ?_, ?_⟩
  · intro status body h
    simp [get_user_location, h]
  · intro data cityS countryS hc hne hco
    simp [get_user_location, hc, hco, pyTruthy, pyToStr, hne]
  · intro data hc
    have he : ("").isEmpty = true := rfl
    simp [get_user_location, hc, pyTruthy, pyToStr, he]

/-- C10 witness: the theorem applied at a 404 response and at a 200
response carrying Sydney and Australia. -/
theorem C10_get_user_location_fallback_witness :
    get_user_location (HttpOutcome.resp 404 none) = fallback_location ∧
    (get_user_location (HttpOutcome.resp 200
        (some [(("city"), Json.jstr ("Sydney")),
               (("country_name"), Json.jstr ("Australia"))]))).full_location =
      Json.jstr ("Sydney, Australia") :=
  ⟨C10_get_user_location_fallback.2.1 404 none (by decide),
   C10_get_user_location_fallback.2.2.2.2.1
     [(("city"), Json.jstr ("Sydney")), (("country_name"), Json.jstr ("Australia"))]
     ("Sydney") ("Australia") rfl rfl rfl⟩
